import Mathlib

/-!
Shallow embedding of the ESA WorldCover example pipeline
(`datasets/esa-worldcover/esa-worldcover-example.ipynb`).

The notebook is a straight-line script:

1. `bbox_of_interest = [33.984, 0.788, 34.902, 1.533]`
2. `catalog.search(collections=["esa-worldcover"], bbox=bbox_of_interest)`,
   `items = list(search.get_items())`
3. `asset_href = items[0].assets["map"].href`
4. `aoi_window = windows.from_bounds(transform=src.transform, *bbox_of_interest)`,
   `raster_data = src.read(1, window=aoi_window)`
5. `ax.imshow(raster_data)`
6. `colormap_def = src.colormap(1)`,
   `colormap = [np.array(colormap_def[i]) / 255 for i in range(len(colormap_def))]`,
   `ax.imshow(raster_data, cmap=ListedColormap(colormap), vmin=0,
              vmax=len(colormap_def) - 1, interpolation="nearest")`

External library behaviour that the script depends on (rasterio's
`windows.from_bounds` and windowed `read`, matplotlib's `ListedColormap`
lookup and nearest-neighbour resampling) is embedded from the libraries'
documented semantics.  Real numbers are modelled by `ℚ`, Python lists by
`List`, Python exceptions by `Except`.
-/

namespace ESAWorldCover

/-- Python-style exception outcomes relevant to the asset-extraction step.
`indexError` is `IndexError` (list index out of range), `keyError` is
`KeyError` (missing dictionary key).  `noDataFound` stands for the explicit
"no data found" condition that the spec asks for; no line of the notebook
raises it, which is exactly what claim C1 is about. -/
inductive PyError
| indexError
| keyError
| noDataFound
deriving DecidableEq, Repr, Inhabited

/-- An asset of a STAC item: the notebook only uses its `href`. -/
structure Asset where
  href : String
deriving DecidableEq, Repr, Inhabited

/-- A STAC item: a mapping from asset name to asset, modelled as an
association list (the notebook does `items[0].assets["map"]`). -/
structure Item where
  assets : List (String × Asset)
deriving DecidableEq, Repr, Inhabited

/-- Embedding of `asset_href = items[0].assets["map"].href`:
`items[0]` raises `IndexError` on an empty list, `.assets["map"]`
raises `KeyError` when the key is absent. -/
def getAssetHref (items : List Item) : Except PyError String :=
  match items.get? 0 with
  | none => Except.error PyError.indexError
  | some it =>
    match it.assets.lookup "map" with
    | none => Except.error PyError.keyError
    | some a => Except.ok a.href

/-- Embedding of Python `s.split("?")[0]`: everything from the first `?`
onward (the SAS signing parameters of the href) is stripped. -/
def stripQuery (s : String) : String :=
  String.mk (s.data.takeWhile (fun c => c ≠ '?'))

example : getAssetHref [] = Except.error PyError.indexError := rfl

example : stripQuery "https://example.com/t.tif?sig=abc" = "https://example.com/t.tif" := by
  decide

/-- Geographic bounding box, ordered (west, south, east, north), as in
`bbox_of_interest = [33.984, 0.788, 34.902, 1.533]`. -/
structure BBox where
  west : ℚ
  south : ℚ
  east : ℚ
  north : ℚ
deriving DecidableEq, Repr, Inhabited

/-- The notebook's `bbox_of_interest = [33.984, 0.788, 34.902, 1.533]`. -/
def bbox_of_interest : BBox :=
  { west := 33984/1000, south := 788/1000, east := 34902/1000, north := 1533/1000 }

/-- An affine geotransform in rasterio's order: a pixel position
(col, row) maps to world coordinates
`x = a * col + b * row + c`, `y = d * col + e * row + f`. -/
structure Affine where
  a : ℚ
  b : ℚ
  c : ℚ
  d : ℚ
  e : ℚ
  f : ℚ
deriving DecidableEq, Repr, Inhabited

/-- Inverse of the affine transform (affine's `~transform * (x, y)`):
the fractional (col, row) of a world coordinate. -/
def Affine.invApply (t : Affine) (x y : ℚ) : ℚ × ℚ :=
  let det := t.a * t.e - t.b * t.d
  ((t.e * (x - t.c) - t.b * (y - t.f)) / det,
   (- t.d * (x - t.c) + t.a * (y - t.f)) / det)

/-- A rasterio window: fractional column/row offsets and sizes in pixels. -/
structure Window where
  col_off : ℚ
  row_off : ℚ
  width : ℚ
  height : ℚ
deriving DecidableEq, Repr, Inhabited

/-- Embedding of rasterio's `windows.from_bounds(left, bottom, right, top,
transform)`: the inverse transform is applied to the four corners of the
box, and the window spans the min/max of the resulting fractional
columns and rows. -/
def from_bounds (transform : Affine) (left bottom right top : ℚ) : Window :=
  let p1 := transform.invApply left top
  let p2 := transform.invApply right top
  let p3 := transform.invApply right bottom
  let p4 := transform.invApply left bottom
  let col_start := min (min p1.1 p2.1) (min p3.1 p4.1)
  let col_stop := max (max p1.1 p2.1) (max p3.1 p4.1)
  let row_start := min (min p1.2 p2.2) (min p3.2 p4.2)
  let row_stop := max (max p1.2 p2.2) (max p3.2 p4.2)
  { col_off := col_start, row_off := row_start,
    width := col_stop - col_start, height := row_stop - row_start }

/-- The window the spec describes by hand: the inverse transform applied
to the top-left corner (west, north) gives the offsets, applied to the
bottom-right corner (east, south) gives the far edge; sizes are the
differences.  This is the definition the claim compares `from_bounds`
against. -/
def handWindow (t : Affine) (left bottom right top : ℚ) : Window :=
  let tl := t.invApply left top
  let br := t.invApply right bottom
  { col_off := tl.1, row_off := tl.2,
    width := br.1 - tl.1, height := br.2 - tl.2 }

/-- Rounding of a fractional pixel length to a whole pixel count, used by
the raster reader to size the output array of a fractional window. -/
def roundQ (q : ℚ) : ℤ := ⌊q + 1/2⌋

/-- Embedding of a windowed single-band read: given the band's pixel
content as a total function of (row, col), the read of a window returns a
2D array with the window's rounded height and width, anchored at the
floor of its offsets. -/
def readWindow (band : ℤ → ℤ → ℤ) (w : Window) : List (List ℤ) :=
  (List.range (roundQ w.height).toNat).map fun (i : ℕ) =>
    (List.range (roundQ w.width).toNat).map fun (j : ℕ) =>
      band (⌊w.row_off⌋ + (i : ℤ)) (⌊w.col_off⌋ + (j : ℤ))

/-- A raw color-table entry: RGBA with byte components, as returned by
rasterio's `src.colormap(band)`. -/
structure RGBA where
  r : ℕ
  g : ℕ
  b : ℕ
  a : ℕ
deriving DecidableEq, Repr, Inhabited

/-- A normalized color: four channels in the unit interval. -/
abbrev Color := ℚ × ℚ × ℚ × ℚ

/-- Embedding of `np.array(colormap_def[i]) / 255`: every channel of one
raw entry divided by 255. -/
def normalizeColor (c : RGBA) : Color :=
  ((c.r : ℚ) / 255, (c.g : ℚ) / 255, (c.b : ℚ) / 255, (c.a : ℚ) / 255)

/-- Embedding of
`colormap = [np.array(colormap_def[i]) / 255 for i in range(len(colormap_def))]`. -/
def normalizeColormap (colormap_def : List RGBA) : List Color :=
  colormap_def.map normalizeColor

/-- Lookup of one value through matplotlib's `Normalize(vmin, vmax)` and a
`ListedColormap` of `table.length` entries: the value is first mapped to
`(v - vmin) / (vmax - vmin)`, scaled by the number of entries,
floored and clamped into the index range.  Out-of-range values use the
first/last entries, matplotlib's defaults for `ListedColormap`. -/
def listedColormapLookup (table : List Color) (vmin vmax v : ℚ) : Color :=
  let x := (v - vmin) / (vmax - vmin)
  let idx : ℤ := ⌊x * table.length⌋
  let k : ℕ := min idx.toNat (table.length - 1)
  table.getD k (0, 0, 0, 0)

/-- Nearest-neighbour source index feeding display position `i` of a
`dispLen`-pixel axis resampled from a `srcLen`-pixel axis: a scaled index,
clamped into range.  It always selects an existing source pixel, never a
blend of two. -/
def nnIndex (srcLen dispLen i : ℕ) : ℕ :=
  min (i * srcLen / dispLen) (srcLen - 1)

/-- The value of a 2D array at (i, j), 0 outside. -/
def sample2d (data : List (List ℤ)) (i j : ℕ) : ℤ :=
  (data.getD i []).getD j 0

/-- The source value that nearest-neighbour resampling displays at
position (i, j) of a `dispH × dispW` display of `data`. -/
def sampledAt (data : List (List ℤ)) (dispH dispW i j : ℕ) : ℤ :=
  sample2d data (nnIndex data.length dispH i) (nnIndex (data.getD 0 []).length dispW j)

/-- Embedding of the colormapped rendering pass
(`imshow(raster_data, cmap=cmap, vmin=vmin, vmax=vmax,
interpolation="nearest")`): the color displayed at position (i, j) of a
`dispH × dispW` display is the colormap lookup of the nearest source
pixel's value. -/
def renderNearest (table : List Color) (vmin vmax : ℚ) (data : List (List ℤ))
    (dispH dispW i j : ℕ) : Color :=
  listedColormapLookup table vmin vmax (sampledAt data dispH dispW i j)

/-- The raster resource behind `rasterio.open(asset_href)`: its
geotransform, and per-band pixel content and embedded color table. -/
structure RasterSource where
  transform : Affine
  bands : ℕ → ℤ → ℤ → ℤ
  colormaps : ℕ → List RGBA

/-- Embedding of `src.read(band, window=w)`. -/
def RasterSource.read (src : RasterSource) (band : ℕ) (w : Window) : List (List ℤ) :=
  readWindow (src.bands band) w

/-- Embedding of `src.colormap(band)`. -/
def RasterSource.colormap (src : RasterSource) (band : ℕ) : List RGBA :=
  src.colormaps band

/-- The external world the notebook talks to in one run: the catalog's
search endpoint (collections and bbox to returned item list), and the
raster resource the asset href resolves to. -/
structure External where
  search : List String → BBox → List Item
  src : RasterSource

/-- The argument tuple of one `ax.imshow(...)` call. -/
structure ImshowCall where
  data : List (List ℤ)
  cmap : Option (List Color)
  vmin : Option ℚ
  vmax : Option ℚ
  interpolation : Option String
deriving DecidableEq, Repr, Inhabited

/-- Everything a completed run of the notebook produced: the arguments
handed to the external collaborators and the values computed in between. -/
structure PipelineResult where
  search_collections : List String
  search_bbox : BBox
  asset_href : String
  window_bbox : BBox
  aoi_window : Window
  read_band : ℕ
  raster_data : List (List ℤ)
  colormap_band : ℕ
  colormap_def : List RGBA
  colormap : List Color
  imshow1 : ImshowCall
  imshow2 : ImshowCall
deriving DecidableEq, Repr, Inhabited

/-- The collection identifier searched: `collections=["esa-worldcover"]`. -/
def collections : List String := ["esa-worldcover"]

/-- The notebook, run end to end against an external world `ext`: search
the catalog with the fixed bbox, take `items[0].assets["map"].href`
(failing exactly as Python would), compute the AOI window from the
transform and the same bbox, read band 1 within it, render it plain, then
read band 1's color table, normalize it and render again with the
discrete colormap, `vmin=0`, `vmax=len(colormap_def) - 1` and nearest
interpolation. -/
def runPipeline (ext : External) : Except PyError PipelineResult :=
  let items := ext.search collections bbox_of_interest
  match getAssetHref items with
  | Except.error e => Except.error e
  | Except.ok asset_href =>
    let aoi_window := from_bounds ext.src.transform bbox_of_interest.west
        bbox_of_interest.south bbox_of_interest.east bbox_of_interest.north
    let raster_data := ext.src.read 1 aoi_window
    let colormap_def := ext.src.colormap 1
    let colormap := normalizeColormap colormap_def
    Except.ok
      { search_collections := collections
        search_bbox := bbox_of_interest
        asset_href := asset_href
        window_bbox := bbox_of_interest
        aoi_window := aoi_window
        read_band := 1
        raster_data := raster_data
        colormap_band := 1
        colormap_def := colormap_def
        colormap := colormap
        imshow1 :=
          { data := raster_data, cmap := none, vmin := none, vmax := none,
            interpolation := none }
        imshow2 :=
          { data := raster_data, cmap := some colormap, vmin := some 0,
            vmax := some ((colormap_def.length : ℚ) - 1),
            interpolation := some "nearest" } }

/-! Concrete test world: a catalog that returns one item carrying a "map"
asset with a signed href, and a raster source with a simple north-up
unit-degree transform, constant pixel content and a two-entry color table
(one meaningful class, one black padding entry). -/

/-- The one item the test catalog returns. -/
def itemW : Item :=
  { assets := [("map", { href := "https://example.com/tile.tif?sig=abc" })] }

/-- The test raster source. -/
def srcW : RasterSource :=
  { transform := { a := 1, b := 0, c := 0, d := 0, e := -1, f := 0 }
    bands := fun _ _ _ => 7
    colormaps := fun _ => [{ r := 0, g := 100, b := 200, a := 255 }, { r := 0, g := 0, b := 0, a := 255 }] }

/-- The test world. -/
def extW : External :=
  { search := fun _ _ => [itemW], src := srcW }

/-- The result of running the pipeline in the test world. -/
def resW : PipelineResult :=
  (runPipeline extW).toOption.getD default

/-- In the test world the run completes and yields `resW`. -/
theorem runPipeline_extW : runPipeline extW = Except.ok resW := rfl

/-! ## Claims -/

/-- C1, as stated, is false: on an empty search result the access
`items[0].assets["map"]` fails with the index error, and no explicit
"no data found" condition is signalled. -/
theorem c1_counterexample :
    getAssetHref [] = Except.error PyError.indexError ∧
    getAssetHref [] ≠ Except.error PyError.noDataFound := by
  refine ⟨rfl, fun hcon => ?_⟩
  exact PyError.noConfusion (Except.error.inj hcon)

/-- C1 (amended): when the catalog search result contains zero items,
accessing the first item's asset fails with an index-out-of-range error;
no explicit "no data found" condition is signalled before indexing.  The
empty-result case and the missing-asset case surface only as the two
different raised errors (index error vs missing-key error). -/
theorem c1_empty_result_index_error (items : List Item) (it : Item)
    (hempty : items = []) (hmiss : it.assets.lookup "map" = none) :
    getAssetHref items = Except.error PyError.indexError ∧
    getAssetHref items ≠ Except.error PyError.noDataFound ∧
    getAssetHref [it] = Except.error PyError.keyError := by
  subst hempty
  refine ⟨rfl, fun hcon => PyError.noConfusion (Except.error.inj hcon), ?_⟩
  simp only [getAssetHref, List.get?, hmiss]

/-- Witness for C1 (amended) at `items = []` and an asset-less item. -/
theorem c1_empty_result_index_error_witness :
    ([] : List Item) = [] ∧ (Item.mk []).assets.lookup "map" = none ∧
    (getAssetHref [] = Except.error PyError.indexError ∧
     getAssetHref [] ≠ Except.error PyError.noDataFound ∧
     getAssetHref [Item.mk []] = Except.error PyError.keyError) :=
  ⟨rfl, rfl, c1_empty_result_index_error [] (Item.mk []) rfl rfl⟩

/-- C4: when the search result has a first item whose asset mapping
contains the key "map", the asset href the pipeline derives is exactly
that entry's href, and hence also matches it after the query-string
signing parameters are stripped from both for comparison. -/
theorem c4_asset_href_matches_entry (ext : External) (res : PipelineResult)
    (it : Item) (a : Asset)
    (hfirst : (ext.search collections bbox_of_interest).get? 0 = some it)
    (hmap : it.assets.lookup "map" = some a)
    (hrun : runPipeline ext = Except.ok res) :
    res.asset_href = a.href ∧
    stripQuery res.asset_href = stripQuery a.href := by
  have hg : getAssetHref (ext.search collections bbox_of_interest) = Except.ok a.href := by
    simp only [getAssetHref, hfirst, hmap]
  simp only [runPipeline] at hrun
  split at hrun
  · rename_i e heq
    rw [hg] at heq
    exact Except.noConfusion heq
  · rename_i href heq
    rw [hg] at heq
    injection heq with heq
    subst heq
    injection hrun with hrun
    subst hrun
    exact ⟨rfl, rfl⟩

/-- Witness for C4 in the test world. -/
theorem c4_asset_href_matches_entry_witness :
    (extW.search collections bbox_of_interest).get? 0 = some itemW ∧
    itemW.assets.lookup "map" = some { href := "https://example.com/tile.tif?sig=abc" } ∧
    (resW.asset_href = Asset.href { href := "https://example.com/tile.tif?sig=abc" } ∧
     stripQuery resW.asset_href = stripQuery (Asset.href { href := "https://example.com/tile.tif?sig=abc" })) :=
  ⟨rfl, rfl, c4_asset_href_matches_entry extW resW itemW _ rfl rfl runPipeline_extW⟩

/-- C6: the second rendering call passes `vmin = 0` and
`vmax = L - 1` where `L` is the length of the color table extracted from
the raster (the full padded table, of which the normalized colormap has
exactly as many entries), so the bounds match the colormap's index
range. -/
theorem c6_vmin_vmax_match_colormap (ext : External) (res : PipelineResult)
    (hrun : runPipeline ext = Except.ok res) :
    res.imshow2.vmin = some 0 ∧
    res.imshow2.vmax = some ((res.colormap_def.length : ℚ) - 1) ∧
    ∃ cm, res.imshow2.cmap = some cm ∧ cm.length = res.colormap_def.length := by
  simp only [runPipeline] at hrun
  split at hrun
  · exact Except.noConfusion hrun
  · injection hrun with hrun
    subst hrun
    exact ⟨rfl, rfl, _, rfl, List.length_map _ _⟩

/-- Witness for C6 in the test world. -/
theorem c6_vmin_vmax_match_colormap_witness :
    resW.imshow2.vmin = some 0 ∧
    resW.imshow2.vmax = some ((resW.colormap_def.length : ℚ) - 1) ∧
    ∃ cm, resW.imshow2.cmap = some cm ∧ cm.length = resW.colormap_def.length :=
  c6_vmin_vmax_match_colormap extW resW runPipeline_extW

/-- C7: both rendering calls receive the very same array, which is the
one windowed read of band 1; nothing between the two passes (in
particular not the second raster open that extracts the color table)
produces a different array. -/
theorem c7_raster_data_read_once (ext : External) (res : PipelineResult)
    (hrun : runPipeline ext = Except.ok res) :
    res.imshow1.data = res.raster_data ∧
    res.imshow2.data = res.raster_data ∧
    res.imshow1.data = res.imshow2.data ∧
    res.raster_data = RasterSource.read ext.src 1 res.aoi_window := by
  simp only [runPipeline] at hrun
  split at hrun
  · exact Except.noConfusion hrun
  · injection hrun with hrun
    subst hrun
    exact ⟨rfl, rfl, rfl, rfl⟩

/-- Witness for C7 in the test world. -/
theorem c7_raster_data_read_once_witness :
    resW.imshow1.data = resW.raster_data ∧
    resW.imshow2.data = resW.raster_data ∧
    resW.imshow1.data = resW.imshow2.data ∧
    resW.raster_data = RasterSource.read extW.src 1 resW.aoi_window :=
  c7_raster_data_read_once extW resW runPipeline_extW

/-- C8: the bounding box is the constant (33.984, 0.788, 34.902, 1.533),
and the very same value is the one handed to the catalog search and to
the pixel-window computation. -/
theorem c8_bbox_constant_shared (ext : External) (res : PipelineResult)
    (hrun : runPipeline ext = Except.ok res) :
    bbox_of_interest =
      { west := 33984/1000, south := 788/1000, east := 34902/1000, north := 1533/1000 } ∧
    res.search_bbox = bbox_of_interest ∧
    res.window_bbox = bbox_of_interest ∧
    res.aoi_window = from_bounds ext.src.transform bbox_of_interest.west
      bbox_of_interest.south bbox_of_interest.east bbox_of_interest.north := by
  simp only [runPipeline] at hrun
  split at hrun
  · exact Except.noConfusion hrun
  · injection hrun with hrun
    subst hrun
    exact ⟨rfl, rfl, rfl, rfl⟩

/-- Witness for C8 in the test world. -/
theorem c8_bbox_constant_shared_witness :
    bbox_of_interest =
      { west := 33984/1000, south := 788/1000, east := 34902/1000, north := 1533/1000 } ∧
    resW.search_bbox = bbox_of_interest ∧
    resW.window_bbox = bbox_of_interest ∧
    resW.aoi_window = from_bounds extW.src.transform bbox_of_interest.west
      bbox_of_interest.south bbox_of_interest.east bbox_of_interest.north :=
  c8_bbox_constant_shared extW resW runPipeline_extW

/-- C9: the pipeline is deterministic.  Two worlds whose catalogs return
the same item list for the searched collections and bbox, whose rasters
have the same transform, the same per-band pixel content and the same
per-band color tables, produce identical runs: same derived asset href,
same window, same read array, same normalized colormap, and identical
argument tuples for both rendering calls. -/
theorem c9_pipeline_deterministic (e1 e2 : External)
    (hitems : e1.search collections bbox_of_interest = e2.search collections bbox_of_interest)
    (htransform : e1.src.transform = e2.src.transform)
    (hbands : e1.src.bands = e2.src.bands)
    (hcolormaps : e1.src.colormaps = e2.src.colormaps) :
    runPipeline e1 = runPipeline e2 := by
  unfold runPipeline RasterSource.read RasterSource.colormap
  rw [hitems, htransform, hbands, hcolormaps]

/-- Witness for C9: two worlds that differ as functions (the second
catalog answers other queries differently) but agree on everything the
run consults. -/
theorem c9_pipeline_deterministic_witness :
    extW.search collections bbox_of_interest =
      (External.mk (fun c _ => if c = collections then [itemW] else []) srcW).search
        collections bbox_of_interest ∧
    runPipeline extW =
      runPipeline (External.mk (fun c _ => if c = collections then [itemW] else []) srcW) :=
  ⟨rfl, c9_pipeline_deterministic _ _ rfl rfl rfl rfl⟩

/-- C10: the band read for pixel data and the band whose embedded color
table is extracted are the same band 1, so the rendered labels and the
color table used to render them come from one and the same band. -/
theorem c10_band_indices_consistent (ext : External) (res : PipelineResult)
    (hrun : runPipeline ext = Except.ok res) :
    res.read_band = 1 ∧
    res.colormap_band = 1 ∧
    res.read_band = res.colormap_band ∧
    res.raster_data = RasterSource.read ext.src res.read_band res.aoi_window ∧
    res.colormap_def = RasterSource.colormap ext.src res.colormap_band := by
  simp only [runPipeline] at hrun
  split at hrun
  · exact Except.noConfusion hrun
  · injection hrun with hrun
    subst hrun
    exact ⟨rfl, rfl, rfl, rfl, rfl⟩

/-- Witness for C10 in the test world. -/
theorem c10_band_indices_consistent_witness :
    resW.read_band = 1 ∧
    resW.colormap_band = 1 ∧
    resW.read_band = resW.colormap_band ∧
    resW.raster_data = RasterSource.read extW.src resW.read_band resW.aoi_window ∧
    resW.colormap_def = RasterSource.colormap extW.src resW.colormap_band :=
  c10_band_indices_consistent extW resW runPipeline_extW

/-- A byte channel divided by 255 lies in the unit interval. -/
lemma byte_div_bounds (n : ℕ) (h : n ≤ 255) : 0 ≤ (n : ℚ) / 255 ∧ (n : ℚ) / 255 ≤ 1 :=
  ⟨div_nonneg (Nat.cast_nonneg n) (by norm_num),
   (div_le_one (by norm_num)).mpr (by exact_mod_cast h)⟩

/-- Dividing by 255 preserves the order of byte channels. -/
lemma byte_div_mono {m n : ℕ} (h : m ≤ n) : (m : ℚ) / 255 ≤ (n : ℚ) / 255 :=
  (div_le_div_iff_of_pos_right (by norm_num)).mpr (by exact_mod_cast h)

/-- C3: normalizing a color table of byte tuples produces exactly as many
float tuples, entry `i` of the output being entry `i` of the input with
every channel divided by 255; channels of in-range entries land in
[0, 1], the order of channel magnitudes is preserved, and raw
(255, 0, 0) with opaque alpha maps to (1, 0, 0) with alpha 1. -/
theorem c3_colormap_normalization (t : List RGBA)
    (hbytes : ∀ c ∈ t, c.r ≤ 255 ∧ c.g ≤ 255 ∧ c.b ≤ 255 ∧ c.a ≤ 255) :
    (normalizeColormap t).length = t.length ∧
    (∀ i : ℕ, (normalizeColormap t)[i]? = t[i]?.map normalizeColor) ∧
    (∀ c ∈ t,
      (0 ≤ (normalizeColor c).1 ∧ (normalizeColor c).1 ≤ 1) ∧
      (0 ≤ (normalizeColor c).2.1 ∧ (normalizeColor c).2.1 ≤ 1) ∧
      (0 ≤ (normalizeColor c).2.2.1 ∧ (normalizeColor c).2.2.1 ≤ 1) ∧
      (0 ≤ (normalizeColor c).2.2.2 ∧ (normalizeColor c).2.2.2 ≤ 1)) ∧
    (∀ c1 c2 : RGBA, c1.r ≤ c2.r → (normalizeColor c1).1 ≤ (normalizeColor c2).1) ∧
    (∀ c1 c2 : RGBA, c1.g ≤ c2.g → (normalizeColor c1).2.1 ≤ (normalizeColor c2).2.1) ∧
    (∀ c1 c2 : RGBA, c1.b ≤ c2.b → (normalizeColor c1).2.2.1 ≤ (normalizeColor c2).2.2.1) ∧
    normalizeColor { r := 255, g := 0, b := 0, a := 255 } = (1, 0, 0, 1) := by
  refine ⟨List.length_map _ _, fun i => by simp only [normalizeColormap, List.getElem?_map], fun c hc => ?_,
    fun c1 c2 h => byte_div_mono h, fun c1 c2 h => byte_div_mono h,
    fun c1 c2 h => byte_div_mono h, ?_⟩
  · obtain ⟨hr, hg, hb, ha⟩ := hbytes c hc
    exact ⟨byte_div_bounds c.r hr, byte_div_bounds c.g hg,
      byte_div_bounds c.b hb, byte_div_bounds c.a ha⟩
  · simp only [normalizeColor, Prod.mk.injEq]
    norm_num

/-- Witness for C3 at the one-entry table [(255, 0, 0, 255)]. -/
theorem c3_colormap_normalization_witness :
    (∀ c ∈ [RGBA.mk 255 0 0 255], c.r ≤ 255 ∧ c.g ≤ 255 ∧ c.b ≤ 255 ∧ c.a ≤ 255) ∧
    ((normalizeColormap [RGBA.mk 255 0 0 255]).length = ([RGBA.mk 255 0 0 255] : List RGBA).length ∧
     (∀ i : ℕ, (normalizeColormap [RGBA.mk 255 0 0 255])[i]? =
        ([RGBA.mk 255 0 0 255] : List RGBA)[i]?.map normalizeColor) ∧
     (∀ c ∈ [RGBA.mk 255 0 0 255],
       (0 ≤ (normalizeColor c).1 ∧ (normalizeColor c).1 ≤ 1) ∧
       (0 ≤ (normalizeColor c).2.1 ∧ (normalizeColor c).2.1 ≤ 1) ∧
       (0 ≤ (normalizeColor c).2.2.1 ∧ (normalizeColor c).2.2.1 ≤ 1) ∧
       (0 ≤ (normalizeColor c).2.2.2 ∧ (normalizeColor c).2.2.2 ≤ 1)) ∧
     (∀ c1 c2 : RGBA, c1.r ≤ c2.r → (normalizeColor c1).1 ≤ (normalizeColor c2).1) ∧
     (∀ c1 c2 : RGBA, c1.g ≤ c2.g → (normalizeColor c1).2.1 ≤ (normalizeColor c2).2.1) ∧
     (∀ c1 c2 : RGBA, c1.b ≤ c2.b → (normalizeColor c1).2.2.1 ≤ (normalizeColor c2).2.2.1) ∧
     normalizeColor { r := 255, g := 0, b := 0, a := 255 } = (1, 0, 0, 1)) :=
  ⟨by decide, c3_colormap_normalization [RGBA.mk 255 0 0 255] (by decide)⟩

/-- For a rectilinear (north-up style) transform the inverse mapping of a
world point is obtained channel-wise. -/
lemma invApply_rectilinear (t : Affine) (hb : t.b = 0) (hd : t.d = 0)
    (ha : t.a ≠ 0) (he : t.e ≠ 0) (x y : ℚ) :
    t.invApply x y = ((x - t.c) / t.a, (y - t.f) / t.e) := by
  simp only [Affine.invApply, hb, hd, zero_mul, mul_zero, sub_zero, neg_zero, zero_add,
    Prod.mk.injEq]
  constructor
  · field_simp
    ring
  · field_simp
    ring

/-- C5: for a rectilinear north-up transform (positive pixel width,
negative pixel height) and a well-ordered bounding box, the window
`from_bounds` computes equals the hand-computed window obtained by
applying the inverse transform to the box's corners — exactly, since the
embedding is over ℚ — and the array read through that window has the
window's (rounded) height and width as its shape. -/
theorem c5_window_matches_inverse_transform (t : Affine) (band : ℤ → ℤ → ℤ)
    (left bottom right top : ℚ)
    (hb : t.b = 0) (hd : t.d = 0) (ha : 0 < t.a) (he : t.e < 0)
    (hlr : left ≤ right) (hbt : bottom ≤ top) :
    from_bounds t left bottom right top = handWindow t left bottom right top ∧
    (readWindow band (from_bounds t left bottom right top)).length
      = (roundQ (from_bounds t left bottom right top).height).toNat ∧
    ∀ row ∈ readWindow band (from_bounds t left bottom right top),
      row.length = (roundQ (from_bounds t left bottom right top).width).toNat := by
  have ha0 : t.a ≠ 0 := ne_of_gt ha
  have he0 : t.e ≠ 0 := ne_of_lt he
  refine ⟨?_, ?_, ?_⟩
  · have hL : (left - t.c) / t.a ≤ (right - t.c) / t.a :=
      (div_le_div_iff_of_pos_right ha).mpr (by linarith)
    have hT : (top - t.f) / t.e ≤ (bottom - t.f) / t.e :=
      (div_le_div_right_of_neg he).mpr (by linarith)
    simp only [from_bounds, handWindow, invApply_rectilinear t hb hd ha0 he0]
    rw [min_comm ((right - t.c) / t.a) ((left - t.c) / t.a), min_self,
      min_eq_left hL, max_comm ((right - t.c) / t.a) ((left - t.c) / t.a), max_self,
      max_eq_right hL, min_self, min_self, min_eq_left hT, max_self, max_self,
      max_eq_right hT]
  · simp only [readWindow, List.length_map, List.length_range]
  · intro row hrow
    simp only [readWindow, List.mem_map] at hrow
    obtain ⟨i, _, rfl⟩ := hrow
    simp only [List.length_map, List.length_range]

/-- Witness for C5 at a unit-degree north-up transform and the box
(0, 0) – (2, 3). -/
theorem c5_window_matches_inverse_transform_witness :
    (Affine.mk 1 0 0 0 (-1) 3).b = 0 ∧ (Affine.mk 1 0 0 0 (-1) 3).d = 0 ∧
    (0 : ℚ) < (Affine.mk 1 0 0 0 (-1) 3).a ∧ (Affine.mk 1 0 0 0 (-1) 3).e < 0 ∧
    (0 : ℚ) ≤ 2 ∧ (0 : ℚ) ≤ 3 ∧
    (from_bounds (Affine.mk 1 0 0 0 (-1) 3) 0 0 2 3
        = handWindow (Affine.mk 1 0 0 0 (-1) 3) 0 0 2 3 ∧
     (readWindow (fun _ _ => 0) (from_bounds (Affine.mk 1 0 0 0 (-1) 3) 0 0 2 3)).length
        = (roundQ (from_bounds (Affine.mk 1 0 0 0 (-1) 3) 0 0 2 3).height).toNat ∧
     ∀ row ∈ readWindow (fun _ _ => 0) (from_bounds (Affine.mk 1 0 0 0 (-1) 3) 0 0 2 3),
       row.length = (roundQ (from_bounds (Affine.mk 1 0 0 0 (-1) 3) 0 0 2 3).width).toNat) :=
  ⟨rfl, rfl, by norm_num, by norm_num, by norm_num, by norm_num,
   c5_window_matches_inverse_transform (Affine.mk 1 0 0 0 (-1) 3) (fun _ _ => 0) 0 0 2 3
     rfl rfl (by norm_num) (by norm_num) (by norm_num) (by norm_num)⟩

/-- The colormap lookup always returns an entry of a nonempty table:
its index is clamped below the length. -/
lemma listedColormapLookup_mem (table : List Color) (vmin vmax v : ℚ)
    (hne : table ≠ []) : listedColormapLookup table vmin vmax v ∈ table := by
  have hlen : 0 < table.length := List.length_pos.mpr hne
  have hk : min (⌊(v - vmin) / (vmax - vmin) * table.length⌋).toNat (table.length - 1)
      < table.length := lt_of_le_of_lt (min_le_right _ _) (by omega)
  simp only [listedColormapLookup]
  rw [List.getD_eq_getElem?_getD, List.getElem?_eq_getElem hk]
  exact List.getElem_mem hk

/-- With `vmin = 0` and `vmax = n - 1`, the clamped lookup index of an
integer value `v` with `0 ≤ v < n` is `v` itself. -/
lemma listedColormap_index_eq (n : ℕ) (v : ℤ) (h0 : 0 ≤ v) (hv : v < (n : ℤ)) :
    min (⌊(v : ℚ) / ((n : ℚ) - 1) * (n : ℚ)⌋).toNat (n - 1) = v.toNat := by
  rcases Nat.lt_or_ge n 2 with h2 | h2
  · have hn1 : n = 1 := by omega
    subst hn1
    have hv0 : v = 0 := by omega
    subst hv0
    norm_num
  · have hq : (0 : ℚ) < (n : ℚ) - 1 := by
      have h2q : (2 : ℚ) ≤ (n : ℚ) := by exact_mod_cast h2
      linarith
    rcases eq_or_lt_of_le (show v ≤ (n : ℤ) - 1 by omega) with hveq | hvlt
    · rw [hveq]
      have hcast : (((n : ℤ) - 1 : ℤ) : ℚ) = (n : ℚ) - 1 := by push_cast; ring
      rw [hcast, div_self (ne_of_gt hq), one_mul, Int.floor_natCast]
      omega
    · have hxmul : (v : ℚ) / ((n : ℚ) - 1) * (n : ℚ)
          = (v : ℚ) + (v : ℚ) / ((n : ℚ) - 1) := by
        field_simp
        ring
      have hfr : ⌊(v : ℚ) / ((n : ℚ) - 1)⌋ = 0 := by
        rw [Int.floor_eq_zero_iff, Set.mem_Ico]
        refine ⟨div_nonneg (by exact_mod_cast h0) (le_of_lt hq), ?_⟩
        rw [div_lt_one hq]
        exact_mod_cast hvlt
      rw [hxmul, Int.floor_int_add, hfr, add_zero]
      omega

/-- With the notebook's bounds (`vmin = 0`, `vmax = table.length - 1`)
the lookup of an in-range integer value is the table entry at exactly
that value. -/
lemma listedColormapLookup_int_index (table : List Color) (v : ℤ)
    (h0 : 0 ≤ v) (hv : v < (table.length : ℤ)) :
    listedColormapLookup table 0 ((table.length : ℚ) - 1) (v : ℚ)
      = table.getD v.toNat (0, 0, 0, 0) := by
  simp only [listedColormapLookup, sub_zero]
  rw [listedColormap_index_eq table.length v h0 hv]

/-- C2: rendering integer labels through the discrete colormap with
nearest-neighbour interpolation and the notebook's bounds shows, at every
display pixel and at any display resolution, an entry of the table (the
lookup of one nearest source pixel, never a blend), and whenever the
sampled value falls in the black-padded part of the table the displayed
color is exactly black. -/
theorem c2_nearest_rendering_within_table (table : List Color) (data : List (List ℤ))
    (nDef dispH dispW i j : ℕ)
    (hne : table ≠ [])
    (hpad : ∀ k, k < table.length → nDef ≤ k → table.getD k (0, 0, 0, 0) = (0, 0, 0, 1)) :
    renderNearest table 0 ((table.length : ℚ) - 1) data dispH dispW i j ∈ table ∧
    ((nDef : ℤ) ≤ sampledAt data dispH dispW i j →
      sampledAt data dispH dispW i j < (table.length : ℤ) →
      renderNearest table 0 ((table.length : ℚ) - 1) data dispH dispW i j = (0, 0, 0, 1)) := by
  constructor
  · exact listedColormapLookup_mem table _ _ _ hne
  · intro hlo hhi
    have h0 : (0 : ℤ) ≤ sampledAt data dispH dispW i j :=
      le_trans (by exact_mod_cast Nat.zero_le nDef) hlo
    unfold renderNearest
    rw [listedColormapLookup_int_index table _ h0 hhi]
    exact hpad _ (by omega) (by omega)

/-- Witness for C2: a two-entry table (one class color, one black padding
entry), a 2×2 label array shown at 3×3. -/
theorem c2_nearest_rendering_within_table_witness :
    ([((1 : ℚ), (0 : ℚ), (0 : ℚ), (1 : ℚ)), (0, 0, 0, 1)] : List Color) ≠ [] ∧
    (∀ k, k < ([((1 : ℚ), (0 : ℚ), (0 : ℚ), (1 : ℚ)), (0, 0, 0, 1)] : List Color).length →
      1 ≤ k →
      ([((1 : ℚ), (0 : ℚ), (0 : ℚ), (1 : ℚ)), (0, 0, 0, 1)] : List Color).getD k (0, 0, 0, 0)
        = (0, 0, 0, 1)) ∧
    (renderNearest [((1 : ℚ), (0 : ℚ), (0 : ℚ), (1 : ℚ)), (0, 0, 0, 1)] 0
        ((([((1 : ℚ), (0 : ℚ), (0 : ℚ), (1 : ℚ)), (0, 0, 0, 1)] : List Color).length : ℚ) - 1)
        [[0, 1], [1, 0]] 3 3 0 0
      ∈ ([((1 : ℚ), (0 : ℚ), (0 : ℚ), (1 : ℚ)), (0, 0, 0, 1)] : List Color) ∧
     ((1 : ℤ) ≤ sampledAt [[0, 1], [1, 0]] 3 3 0 0 →
      sampledAt [[0, 1], [1, 0]] 3 3 0 0
        < (([((1 : ℚ), (0 : ℚ), (0 : ℚ), (1 : ℚ)), (0, 0, 0, 1)] : List Color).length : ℤ) →
      renderNearest [((1 : ℚ), (0 : ℚ), (0 : ℚ), (1 : ℚ)), (0, 0, 0, 1)] 0
          ((([((1 : ℚ), (0 : ℚ), (0 : ℚ), (1 : ℚ)), (0, 0, 0, 1)] : List Color).length : ℚ) - 1)
          [[0, 1], [1, 0]] 3 3 0 0 = (0, 0, 0, 1))) :=
  ⟨by decide, by decide,
   c2_nearest_rendering_within_table [((1 : ℚ), (0 : ℚ), (0 : ℚ), (1 : ℚ)), (0, 0, 0, 1)]
     [[0, 1], [1, 0]] 1 3 3 0 0 (by decide) (by decide)⟩

end ESAWorldCover
